import Mathlib

/-!
Verification of the SwingSignal report-rendering scripts (`js/weekly.js`
and the daily `js/app.js`).  The JavaScript is shallowly embedded: the
JSON field values the scripts read become an inductive `JSVal` (numbers
are modelled as integers, which covers every value the claims mention),
field absence is `undefined`, and the DOM-based helpers (`escapeHtml`'s
`textContent`/`innerHTML` round trip, `toLocaleString('en-IN')`,
`toLocaleDateString('en-US', ...)`) are modelled by the string
transformations the HTML and ECMA-402 specifications prescribe for them.
-/

namespace SwingSignal

/-- A JavaScript value as it appears in the report-JSON fields the
scripts read: `null`, `undefined` (also standing in for an absent
field), a string, or a number (modelled as an integer). -/
inductive JSVal where
  | null
  | undefined
  | str (s : String)
  | num (n : Int)
deriving DecidableEq, Repr

/-- JavaScript truthiness for the modelled values: `null`, `undefined`,
the empty string and `0` are falsy, everything else is truthy. -/
def JSVal.truthy : JSVal → Bool
  | .null => false
  | .undefined => false
  | .str s => s ≠ ""
  | .num n => n ≠ 0

/-- JavaScript `a || b` on modelled values. -/
def jsOr (a b : JSVal) : JSVal :=
  if a.truthy then a else b

/-- JavaScript `a || b || c`. -/
def jsOr3 (a b c : JSVal) : JSVal :=
  jsOr a (jsOr b c)

/-- HTML text-node serialization of one character, as performed when
reading back `innerHTML`: `&`, `<`, `>` and U+00A0 become character
references, every other character is kept. -/
def escChar (c : Char) : List Char :=
  if c = '&' then "&amp;".data
  else if c = '<' then "&lt;".data
  else if c = '>' then "&gt;".data
  else if c = Char.ofNat 160 then "&nbsp;".data
  else [c]

/-- HTML text-node serialization of a character list. -/
def htmlSerialize : List Char → List Char
  | [] => []
  | c :: cs => escChar c ++ htmlSerialize cs

/-- The `div.textContent = v; return div.innerHTML` round trip.
Assigning to `Node.textContent` (a nullable DOMString) coerces `null`
and `undefined` to the empty text and a number to its decimal string;
reading `innerHTML` then serializes the text node. -/
def domEscape : JSVal → String
  | .null => ""
  | .undefined => ""
  | .str s => ⟨htmlSerialize s.data⟩
  | .num n => ⟨htmlSerialize (toString n).data⟩

/-- `escapeHtml` from `js/weekly.js`: `if (!text) return '';` then the
div round trip. -/
def escapeHtml (text : JSVal) : String :=
  if text.truthy then domEscape text else ""

/-- `escapeHtml` from the daily `js/app.js`: no falsy guard, just the
div round trip. -/
def escapeHtmlDaily (text : JSVal) : String :=
  domEscape text

/-- Chunk a least-significant-first digit list into pairs, keeping the
least-significant chunk first.  Used for the `en-IN` locale, which
groups the last three digits and then pairs. -/
def pairChunksRev : List Char → List (List Char)
  | [] => []
  | [a] => [[a]]
  | a :: b :: rest => [a, b] :: pairChunksRev rest

/-- `Number(n).toLocaleString('en-IN')` for a natural number: decimal
digits grouped as last three, then pairs, separated by commas. -/
def groupIndianNat (n : Nat) : String :=
  let rev := (toString n).data.reverse
  let last3 := (rev.take 3).reverse
  let pairs := (pairChunksRev (rev.drop 3)).map List.reverse
  String.intercalate "," ((pairs.reverse ++ [last3]).map fun g => (⟨g⟩ : String))

/-- `Number(n).toLocaleString('en-IN')` for a modelled (integral)
JavaScript number. -/
def toLocaleStringEnIN (n : Int) : String :=
  if n < 0 then "-" ++ groupIndianNat n.natAbs else groupIndianNat n.toNat

/-- `formatNumber` (identical in `js/weekly.js` and `js/app.js`):
`null`/`undefined` (modelled together as `none`) give `"N/A"`, a number
is rendered via `toLocaleString('en-IN')`. -/
def formatNumber : Option Int → String
  | none => "N/A"
  | some n => toLocaleStringEnIN n

/-- `formatSetupValue` (identical in both scripts): `null`/`undefined`
give `"N/A"`, a number goes through `formatNumber`, anything else is
`escapeHtml(String(value))`. -/
def formatSetupValue : JSVal → String
  | .null => "N/A"
  | .undefined => "N/A"
  | .num n => formatNumber (some n)
  | .str s => escapeHtml (.str s)

/-- Value of a maximal leading run of decimal digits, most significant
first, on top of an accumulator. -/
def digitsPrefixVal : List Char → Nat → Nat
  | [], acc => acc
  | c :: cs, acc => if c.isDigit then digitsPrefixVal cs (acc * 10 + (c.toNat - 48)) else acc

/-- Whether the list starts with a decimal digit. -/
def hasLeadingDigit : List Char → Bool
  | [] => false
  | c :: _ => c.isDigit

/-- JavaScript `parseInt(s, 10)`: skip leading whitespace, take an
optional sign and then the maximal digit prefix; `NaN` (here `none`)
when no digit follows. -/
def parseIntJS (s : String) : Option Int :=
  match s.data.dropWhile Char.isWhitespace with
  | '-' :: rest =>
    if hasLeadingDigit rest then some (-(digitsPrefixVal rest 0 : Int)) else none
  | '+' :: rest =>
    if hasLeadingDigit rest then some ((digitsPrefixVal rest 0 : Int)) else none
  | rest =>
    if hasLeadingDigit rest then some ((digitsPrefixVal rest 0 : Int)) else none

/-- Helper for `jsSplit`: accumulates the current field (reversed). -/
def jsSplitAux : List Char → Char → List Char → List (List Char)
  | [], _, acc => [acc.reverse]
  | c :: cs, sep, acc =>
    if c = sep then acc.reverse :: jsSplitAux cs sep [] else jsSplitAux cs sep (c :: acc)

/-- JavaScript `s.split(sep)` for a one-character separator: the list
of fields between separator occurrences (`"".split(sep) = [""]`,
adjacent separators yield empty fields). -/
def jsSplit (s : String) (sep : Char) : List String :=
  (jsSplitAux s.data sep []).map fun l => (⟨l⟩ : String)

/-- Days since 1970-01-01 of the proleptic-Gregorian civil date
`y-m-d` (`m` in 1..12), by the standard days-from-civil algorithm. -/
def daysFromCivil (y m d : Int) : Int :=
  let ys := if m ≤ 2 then y - 1 else y
  let era := Int.fdiv ys 400
  let yoe := ys - era * 400
  let mp := Int.emod (m + 9) 12
  let doy := Int.fdiv (153 * mp + 2) 5 + d - 1
  let doe := yoe * 365 + Int.fdiv yoe 4 - Int.fdiv yoe 100 + doy
  era * 146097 + doe - 719468

/-- Civil date `(y, m, d)` of a count of days since 1970-01-01
(inverse of `daysFromCivil`). -/
def civilFromDays (z : Int) : Int × Int × Int :=
  let zs := z + 719468
  let era := Int.fdiv zs 146097
  let doe := zs - era * 146097
  let yoe := Int.fdiv (doe - Int.fdiv doe 1460 + Int.fdiv doe 36524 - Int.fdiv doe 146096) 365
  let y := yoe + era * 400
  let doy := doe - (365 * yoe + Int.fdiv yoe 4 - Int.fdiv yoe 100)
  let mp := Int.fdiv (5 * doy + 2) 153
  let d := doy - Int.fdiv (153 * mp + 2) 5 + 1
  let m := if mp < 10 then mp + 3 else mp - 9
  (if m ≤ 2 then y + 1 else y, m, d)

/-- English weekday name for a weekday number, 0 = Sunday. -/
def weekdayName (w : Int) : String :=
  if w = 0 then "Sunday"
  else if w = 1 then "Monday"
  else if w = 2 then "Tuesday"
  else if w = 3 then "Wednesday"
  else if w = 4 then "Thursday"
  else if w = 5 then "Friday"
  else "Saturday"

/-- English month name for a month number 1..12. -/
def monthNameEnUS (m : Int) : String :=
  if m = 1 then "January"
  else if m = 2 then "February"
  else if m = 3 then "March"
  else if m = 4 then "April"
  else if m = 5 then "May"
  else if m = 6 then "June"
  else if m = 7 then "July"
  else if m = 8 then "August"
  else if m = 9 then "September"
  else if m = 10 then "October"
  else if m = 11 then "November"
  else "December"

/-- `toLocaleDateString('en-US', {weekday:'long', year:'numeric',
month:'long', day:'numeric'})` of the date `z` days after the epoch:
"Weekday, Month D, YYYY".  1970-01-01 was a Thursday. -/
def renderEnUSLong (z : Int) : String :=
  let c := civilFromDays z
  weekdayName (Int.emod (z + 4) 7) ++ ", " ++ monthNameEnUS c.2.1 ++ " "
    ++ toString c.2.2 ++ ", " ++ toString c.1

/-- `new Date(year, monthIndex, day)` normalization, as days since the
epoch: a year in 0..99 means 1900+year, and out-of-range month or day
values roll over into adjacent months and years. -/
def jsDateDays (y m d : Int) : Int :=
  let yy := if 0 ≤ y ∧ y ≤ 99 then y + 1900 else y
  let ym := yy * 12 + m
  daysFromCivil (Int.fdiv ym 12) (Int.emod ym 12 + 1) 1 + (d - 1)

/-- `formatDate` from `js/weekly.js`: falsy input gives "This Week";
otherwise the string is split on "-"; with exactly three parts, each is
parsed with `parseInt` and `new Date(y, m-1, d)` is rendered long-form
in `en-US` (a component that fails to parse makes an invalid date,
which renders as "Invalid Date"); any other number of parts returns
the input verbatim. -/
def formatDate (dateStr : Option String) : String :=
  match dateStr with
  | none => "This Week"
  | some s =>
    if s = "" then "This Week"
    else
      match jsSplit s '-' with
      | [ys, ms, ds] =>
        match parseIntJS ys, parseIntJS ms, parseIntJS ds with
        | some y, some m, some d => renderEnUSLong (jsDateDays y (m - 1) d)
        | _, _, _ => "Invalid Date"
      | _ => s

/-- Number of days in a month of the proleptic Gregorian calendar. -/
def daysInMonth (y m : Int) : Int :=
  if m = 2 then
    (if Int.emod y 4 = 0 ∧ (Int.emod y 100 ≠ 0 ∨ Int.emod y 400 = 0) then 29 else 28)
  else if m = 4 ∨ m = 6 ∨ m = 9 ∨ m = 11 then 30
  else 31

/-- The ECMAScript `Date` constructor's parse of a date-only string in
the Date Time String Format `YYYY-MM-DD` (four-digit year, two-digit
month and day, all components in range); anything else is treated as an
invalid date. -/
def parseISODateOnly (s : String) : Option (Int × Int × Int) :=
  match jsSplit s '-' with
  | [ys, ms, ds] =>
    if ys.data.length = 4 ∧ ms.data.length = 2 ∧ ds.data.length = 2
        ∧ ys.data.all Char.isDigit ∧ ms.data.all Char.isDigit ∧ ds.data.all Char.isDigit then
      let y : Int := digitsPrefixVal ys.data 0
      let m : Int := digitsPrefixVal ms.data 0
      let d : Int := digitsPrefixVal ds.data 0
      if 1 ≤ m ∧ m ≤ 12 ∧ 1 ≤ d ∧ d ≤ daysInMonth y m then some (y, m, d) else none
    else none
  | _ => none

/-- `formatDate` from the daily `js/app.js`: falsy input gives "Today";
otherwise `new Date(dateStr)` parses a `YYYY-MM-DD` string as *UTC*
midnight and `toLocaleDateString` renders it in the viewer's local
time zone, `tzOffsetMin` minutes east of UTC — the rendered civil day
is the UTC day shifted by `⌊tzOffsetMin / 1440⌋`, one day earlier
anywhere west of UTC.  A string that does not parse as a date renders
as "Invalid Date". -/
def formatDateDaily (tzOffsetMin : Int) (dateStr : Option String) : String :=
  match dateStr with
  | none => "Today"
  | some s =>
    if s = "" then "Today"
    else
      match parseISODateOnly s with
      | some ymd => renderEnUSLong (daysFromCivil ymd.1 ymd.2.1 ymd.2.2 + Int.fdiv tzOffsetMin 1440)
      | none => "Invalid Date"

/-- ASCII upper-casing of one character (`toUpperCase` restricted to
the ASCII range, which covers every value the reports carry). -/
def upChar (c : Char) : Char :=
  if 'a' ≤ c ∧ c ≤ 'z' then Char.ofNat (c.toNat - 32) else c

/-- ASCII lower-casing of one character. -/
def lowChar (c : Char) : Char :=
  if 'A' ≤ c ∧ c ≤ 'Z' then Char.ofNat (c.toNat + 32) else c

/-- JavaScript `s.toUpperCase()` (ASCII). -/
def jsToUpper (s : String) : String :=
  ⟨s.data.map upChar⟩

/-- JavaScript `s.toLowerCase()` (ASCII). -/
def jsToLower (s : String) : String :=
  ⟨s.data.map lowChar⟩

/-- JavaScript `String(v)` coercion of a modelled value. -/
def strOfJS : JSVal → String
  | .null => "null"
  | .undefined => "undefined"
  | .str s => s
  | .num n => toString n

/-- `a || b` on optional string fields (`none` = absent field,
`some ""` = present but falsy), resolved against a string default:
models `a || b` where `b` is a string literal. -/
def strOrD (a : Option String) (b : String) : String :=
  match a with
  | some s => if s = "" then b else s
  | none => b

/-- Truthiness of an optional string field. -/
def strTruthy (a : Option String) : Bool :=
  match a with
  | some s => s ≠ ""
  | none => false

/-- `a || b` on optional number fields: a present `0` is falsy and
falls through (`0 || undefined` is `undefined`). -/
def priceOr (a b : Option Int) : Option Int :=
  match a with
  | some n => if n = 0 then b else some n
  | none => b

/-- The `trade_setup` object of a raw signal entry, with both the
primary and the legacy key of each sub-field. -/
structure TradeSetup where
  entry : JSVal := .undefined
  entryZone : JSVal := .undefined
  stop : JSVal := .undefined
  stopLoss : JSVal := .undefined
  target : JSVal := .undefined
  targetPrice : JSVal := .undefined
deriving DecidableEq, Repr

/-- The `analysis` field of a raw entry: absent, a plain string, or
the nested weekly object carrying `reasoning`, `confidenceScore` and
`tradeSetup`. -/
inductive AnalysisVal where
  | undefined
  | str (s : String)
  | obj (reasoning : Option String) (confidenceScore : JSVal) (tradeSetup : Option TradeSetup)
deriving DecidableEq, Repr

/-- A raw signal entry as the scripts read it.  `sigField` models the
raw entry's `signal` key (the legacy alternate of `action`); string
fields are `Option String` (`none` = absent; JSON `null` behaves the
same as absent in every read the scripts perform on them), prices are
optional integers, `score` may be a string or a number. -/
structure Signal where
  symbol : Option String := none
  ticker : Option String := none
  action : Option String := none
  sigField : Option String := none
  score : JSVal := .undefined
  reference_price : Option Int := none
  price : Option Int := none
  trade_setup : Option TradeSetup := none
  analysis : AnalysisVal := .undefined
deriving DecidableEq, Repr

/-- `signal.analysis?.tradeSetup` (a string or absent `analysis` gives
`undefined`). -/
def analysisTradeSetup : AnalysisVal → Option TradeSetup
  | .obj _ _ ts => ts
  | _ => none

/-- `signal.analysis?.confidenceScore`. -/
def analysisConfidence : AnalysisVal → JSVal
  | .obj _ cs _ => cs
  | _ => .undefined

/-- `signal.trade_setup || signal.analysis?.tradeSetup || {}` from
`createSignalCard` in `js/weekly.js`. -/
def resolveSetup (s : Signal) : TradeSetup :=
  match s.trade_setup with
  | some ts => ts
  | none =>
    match analysisTradeSetup s.analysis with
    | some ts => ts
    | none => {}

/-- `signal.action || signal.signal || 'BUY'` from `createSignalCard`
in `js/weekly.js`. -/
def resolveCardAction (s : Signal) : String :=
  strOrD s.action (strOrD s.sigField "BUY")

/-- `signal.symbol || signal.ticker || 'N/A'`. -/
def resolveSymbol (s : Signal) : String :=
  strOrD s.symbol (strOrD s.ticker "N/A")

/-- `setup.entry || setup.entryZone`. -/
def resolveEntry (ts : TradeSetup) : JSVal :=
  jsOr ts.entry ts.entryZone

/-- `setup.stop || setup.stopLoss`. -/
def resolveStop (ts : TradeSetup) : JSVal :=
  jsOr ts.stop ts.stopLoss

/-- `setup.target || setup.targetPrice`. -/
def resolveTarget (ts : TradeSetup) : JSVal :=
  jsOr ts.target ts.targetPrice

/-- `analysisText` from `createSignalCard` in `js/weekly.js`: the
`analysis` field when it is a string, else its non-falsy `reasoning`
sub-field, else the fixed message. -/
def resolveAnalysisText (a : AnalysisVal) : String :=
  match a with
  | .str s => s
  | .obj r _ _ => strOrD r "No analysis available."
  | .undefined => "No analysis available."

/-- The dynamic slots of the card markup built by `createSignalCard`
(the surrounding HTML boilerplate is constant, so the card is modelled
by the values interpolated into it). -/
structure CardView where
  className : String
  symbolHtml : String
  priceHtml : String
  actionBadgeClass : String
  actionBadgeHtml : String
  scoreBadgeHtml : String
  entryHtml : String
  stopHtml : String
  targetHtml : String
  analysisHtml : String
deriving DecidableEq, Repr

/-- `createSignalCard` from `js/weekly.js`. -/
def createSignalCard (s : Signal) : CardView :=
  let action := resolveCardAction s
  let actionClass := jsToLower action
  let setup := resolveSetup s
  let score := jsOr3 s.score (analysisConfidence s.analysis) (.str "N/A")
  { className := "signal-card " ++ actionClass
    symbolHtml := escapeHtml (.str (resolveSymbol s))
    priceHtml := "Ref: ₹" ++ formatNumber (priceOr s.reference_price s.price)
    actionBadgeClass := actionClass
    actionBadgeHtml := escapeHtml (.str action)
    scoreBadgeHtml := escapeHtml (.str (strOfJS score))
    entryHtml := formatSetupValue (resolveEntry setup)
    stopHtml := formatSetupValue (resolveStop setup)
    targetHtml := formatSetupValue (resolveTarget setup)
    analysisHtml := escapeHtml (.str (resolveAnalysisText s.analysis)) }

/-- `createSignalCard` from the daily `js/app.js`: primary field names
only, `'N/A'` defaults on the badges and `'buy'` on the card class. -/
def createSignalCardDaily (s : Signal) : CardView :=
  let actionClass :=
    match s.action with
    | some a => if jsToLower a = "" then "buy" else jsToLower a
    | none => "buy"
  let setup := s.trade_setup.getD {}
  { className := "signal-card " ++ actionClass
    symbolHtml := escapeHtmlDaily (.str (strOrD s.symbol "N/A"))
    priceHtml := "Ref: ₹" ++ formatNumber s.reference_price
    actionBadgeClass := actionClass
    actionBadgeHtml := escapeHtmlDaily (.str (strOrD s.action "N/A"))
    scoreBadgeHtml := escapeHtmlDaily (jsOr s.score (.str "N/A"))
    entryHtml := formatSetupValue setup.entry
    stopHtml := formatSetupValue setup.stop
    targetHtml := formatSetupValue setup.target
    analysisHtml :=
      match s.analysis with
      | .str t => if t = "" then escapeHtmlDaily (.str "No analysis available.") else escapeHtmlDaily (.str t)
      | .undefined => escapeHtmlDaily (.str "No analysis available.")
      | .obj _ _ _ => "[object Object]" }

/-- The signals container after `renderSignals`: the empty-state block
for an empty list, otherwise the list of cards. -/
inductive ContainerView where
  | emptyState (msg : String)
  | cards (l : List CardView)
deriving DecidableEq, Repr

/-- `renderSignals` from `js/weekly.js`. -/
def renderSignalsWeekly (signals : List Signal) : ContainerView :=
  if signals.length = 0 then .emptyState "No weekly signals available."
  else .cards (signals.map createSignalCard)

/-- `renderSignals` from the daily `js/app.js`. -/
def renderSignalsDaily (signals : List Signal) : ContainerView :=
  if signals.length = 0 then .emptyState "No signals available for today."
  else .cards (signals.map createSignalCardDaily)

/-- `(s.action || s.signal || '').toUpperCase()`, the classification
the weekly buy/sell counters apply to an entry. -/
def upActionW (s : Signal) : String :=
  jsToUpper (strOrD s.action (strOrD s.sigField ""))

/-- Whether the weekly buy counter counts the entry. -/
def isBuyW (s : Signal) : Bool :=
  upActionW s = "BUY"

/-- Whether the weekly sell counter counts the entry. -/
def isSellW (s : Signal) : Bool :=
  upActionW s = "SELL"

/-- `data.signals?.filter(...).length || 0` for BUY, from
`renderReport` in `js/weekly.js`. -/
def buyCountW (signals : Option (List Signal)) : Nat :=
  match signals with
  | none => 0
  | some l => (l.filter isBuyW).length

/-- The weekly SELL counter. -/
def sellCountW (signals : Option (List Signal)) : Nat :=
  match signals with
  | none => 0
  | some l => (l.filter isSellW).length

/-- `s.action?.toUpperCase() === 'BUY'`, the daily buy test (the daily
page does not read the legacy `signal` key). -/
def isBuyDaily (s : Signal) : Bool :=
  match s.action with
  | some a => jsToUpper a = "BUY"
  | none => false

/-- The daily SELL test. -/
def isSellDaily (s : Signal) : Bool :=
  match s.action with
  | some a => jsToUpper a = "SELL"
  | none => false

/-- The daily BUY counter from `renderReport` in `js/app.js`. -/
def buyCountDaily (signals : Option (List Signal)) : Nat :=
  match signals with
  | none => 0
  | some l => (l.filter isBuyDaily).length

/-- The daily SELL counter. -/
def sellCountDaily (signals : Option (List Signal)) : Nat :=
  match signals with
  | none => 0
  | some l => (l.filter isSellDaily).length

/-- Number of entries of the (possibly absent) signals array. -/
def numEntries (signals : Option (List Signal)) : Nat :=
  (signals.getD []).length

/-- `meta.total_signals || data.signals?.length || 0` (same expression
in both scripts). -/
def totalDisplay (total_signals : Option Int) (signals : Option (List Signal)) : Int :=
  match total_signals with
  | some n => if n = 0 then (numEntries signals : Int) else n
  | none => (numEntries signals : Int)

/-- The metadata object of a weekly report, with every key the weekly
script or the claims mention (`week_ending` is carried so that the
resolution's independence from it can be stated). -/
structure WeeklyMeta where
  week_ending : Option String := none
  generated_date : Option String := none
  generated_at : Option String := none
  total_signals : Option Int := none
deriving DecidableEq, Repr

/-- The weekly date-string resolution from `renderReport` in
`js/weekly.js`: `let dateStr = meta.generated_date; if (!dateStr &&
meta.generated_at) dateStr = meta.generated_at.split('T')[0];`. -/
def resolveWeeklyDateStr (m : WeeklyMeta) : Option String :=
  if strTruthy m.generated_date then m.generated_date
  else
    match m.generated_at with
    | some t => if t = "" then m.generated_date else some ((jsSplit t 'T').headD "")
    | none => m.generated_date

/-- A weekly report document: `data.report_metadata || data.meta`
plus the signals array. -/
structure WeeklyDoc where
  report_metadata : Option WeeklyMeta := none
  meta : Option WeeklyMeta := none
  signals : Option (List Signal) := none
deriving DecidableEq, Repr

/-- `const meta = data.report_metadata || data.meta`. -/
def weeklyResolvedMeta (d : WeeklyDoc) : Option WeeklyMeta :=
  match d.report_metadata with
  | some m => some m
  | none => d.meta

/-- The metadata object of a daily report. -/
structure DailyMeta where
  title : Option String := none
  generated_date : Option String := none
  total_signals : Option Int := none
deriving DecidableEq, Repr

/-- A daily report document. -/
structure DailyDoc where
  report_metadata : Option DailyMeta := none
  signals : Option (List Signal) := none
deriving DecidableEq, Repr

/-- The DOM fields a render pass writes: the text content of the
title, date, and three count elements, and the signals container. -/
structure DisplayState where
  reportTitle : String
  reportDate : String
  totalSignals : String
  buySignals : String
  sellSignals : String
  signalsContainer : ContainerView
deriving DecidableEq, Repr

/-- `renderReport` from `js/weekly.js` as a transformer of the display
state: metadata fields are written only when `report_metadata || meta`
is truthy; the counts and the container are always written. -/
def renderReportWeekly (data : WeeklyDoc) (st : DisplayState) : DisplayState :=
  let st1 :=
    match weeklyResolvedMeta data with
    | some m =>
      { st with
        reportTitle := "Weekly Signals"
        reportDate := "Week of " ++ formatDate (resolveWeeklyDateStr m)
        totalSignals := toString (totalDisplay m.total_signals data.signals) }
    | none => st
  { st1 with
    buySignals := toString (buyCountW data.signals)
    sellSignals := toString (sellCountW data.signals)
    signalsContainer := renderSignalsWeekly (data.signals.getD []) }

/-- `renderReport` from the daily `js/app.js` as a transformer of the
display state (`tz` is the viewer's offset, minutes east of UTC, which
only the date rendering consults): metadata fields are written only
when `data.report_metadata` is truthy. -/
def renderReportDaily (tz : Int) (data : DailyDoc) (st : DisplayState) : DisplayState :=
  let st1 :=
    match data.report_metadata with
    | some m =>
      { st with
        reportTitle := strOrD m.title "SwingSignal AI"
        reportDate := formatDateDaily tz m.generated_date
        totalSignals := toString (totalDisplay m.total_signals data.signals) }
    | none => st
  { st1 with
    buySignals := toString (buyCountDaily data.signals)
    sellSignals := toString (sellCountDaily data.signals)
    signalsContainer := renderSignalsDaily (data.signals.getD []) }

/-- A pick entry of the weekly digest shape (spec §3). -/
structure PickEntry where
  symbol : Option String := none
  ticker : Option String := none
  action : Option String := none
  sigField : Option String := none
  rationale : Option String := none
  reason : Option String := none
deriving DecidableEq, Repr

/-- The weekly digest document shape (spec §3/§6). -/
structure WeeklyDigest where
  market_overview : Option String := none
  key_insights : Option (List String) := none
  top_picks : Option (List PickEntry) := none
  sector_analysis : Option String := none
  outlook : Option String := none
deriving DecidableEq, Repr

/-- Content of one digest section: free text or a list. -/
inductive SectionContent where
  | text (s : String)
  | items (l : List String)
  | picks (l : List PickEntry)
deriving DecidableEq, Repr

/-- Whether a section's content is non-empty (spec: lists are only
included if non-empty, text only when present and non-empty). -/
def sectionNonEmpty : SectionContent → Bool
  | .text s => s ≠ ""
  | .items l => l.length ≠ 0
  | .picks l => l.length ≠ 0

/-- The fixed section order of the weekly digest (spec §4.6). -/
def digestOrder : List String :=
  ["Market Overview", "Key Insights", "Top Picks", "Sector Analysis", "Outlook"]

/-- The present sections of a digest, in the fixed order, before the
non-emptiness test. -/
def digestSectionsRaw (d : WeeklyDigest) : List (String × SectionContent) :=
  (match d.market_overview with
    | some s => [("Market Overview", SectionContent.text s)]
    | none => []) ++
  (match d.key_insights with
    | some l => [("Key Insights", SectionContent.items l)]
    | none => []) ++
  (match d.top_picks with
    | some l => [("Top Picks", SectionContent.picks l)]
    | none => []) ++
  (match d.sector_analysis with
    | some s => [("Sector Analysis", SectionContent.text s)]
    | none => []) ++
  (match d.outlook with
    | some s => [("Outlook", SectionContent.text s)]
    | none => [])

/-- Modelled from the spec: the weekly-digest renderer is not among the
source files under `src/` (only the signal-list renderers are), so its
`renderSection` behaviour is taken from spec §4.6 — a section block is
emitted only when its content is present and non-empty, in the fixed
order overview, insights, top picks, sector analysis, outlook. -/
def renderedSections (d : WeeklyDigest) : List (String × SectionContent) :=
  (digestSectionsRaw d).filter fun sec => sectionNonEmpty sec.2

/-- The digest display: the empty-state block or the section list. -/
inductive DigestView where
  | emptyState (msg : String)
  | sections (l : List (String × SectionContent))
deriving DecidableEq, Repr

/-- Modelled from the spec: the digest render emits the empty-state
message when no section survives the non-emptiness test (spec §7
degradation, and the testable property of §8). -/
def renderDigest (d : WeeklyDigest) : DigestView :=
  if (renderedSections d).length = 0 then .emptyState "No weekly digest available."
  else .sections (renderedSections d)

theorem escChar_no_angle (c : Char) : '<' ∉ escChar c ∧ '>' ∉ escChar c := by
  unfold escChar
  split_ifs with h1 h2 h3 h4
  · exact ⟨by decide, by decide⟩
  · exact ⟨by decide, by decide⟩
  · exact ⟨by decide, by decide⟩
  · exact ⟨by decide, by decide⟩
  · refine ⟨fun hm => ?_, fun hm => ?_⟩
    · exact h2 (List.mem_singleton.mp hm).symm
    · exact h3 (List.mem_singleton.mp hm).symm

theorem htmlSerialize_no_angle (l : List Char) :
    '<' ∉ htmlSerialize l ∧ '>' ∉ htmlSerialize l := by
  induction l with
  | nil => exact ⟨List.not_mem_nil _, List.not_mem_nil _⟩
  | cons c cs ih =>
    have hc := escChar_no_angle c
    refine ⟨fun hm => ?_, fun hm => ?_⟩
    · rcases List.mem_append.mp hm with h | h
      · exact hc.1 h
      · exact ih.1 h
    · rcases List.mem_append.mp hm with h | h
      · exact hc.2 h
      · exact ih.2 h

theorem domEscape_no_angle (v : JSVal) :
    '<' ∉ (domEscape v).data ∧ '>' ∉ (domEscape v).data := by
  cases v with
  | null => exact ⟨List.not_mem_nil _, List.not_mem_nil _⟩
  | undefined => exact ⟨List.not_mem_nil _, List.not_mem_nil _⟩
  | str s => exact htmlSerialize_no_angle s.data
  | num n => exact htmlSerialize_no_angle (toString n).data

/-- C1: for every input, the result of `escapeHtml` (weekly page) and of
the daily page's `escapeHtml` contains no raw `<` or `>` character, so
inserted as text content it cannot introduce markup structure; and both
return the empty string on `null` and on `undefined`. -/
theorem C1_escape_no_angle_and_nullish_empty :
    (∀ v : JSVal, '<' ∉ (escapeHtml v).data ∧ '>' ∉ (escapeHtml v).data) ∧
    (∀ v : JSVal, '<' ∉ (escapeHtmlDaily v).data ∧ '>' ∉ (escapeHtmlDaily v).data) ∧
    escapeHtml JSVal.null = "" ∧ escapeHtml JSVal.undefined = "" ∧
    escapeHtmlDaily JSVal.null = "" ∧ escapeHtmlDaily JSVal.undefined = "" := by
  refine ⟨fun v => ?_, fun v => domEscape_no_angle v, rfl, rfl, rfl, rfl⟩
  unfold escapeHtml
  split_ifs
  · exact domEscape_no_angle v
  · exact ⟨List.not_mem_nil _, List.not_mem_nil _⟩

/-- C2 counterexample: an entry whose `action` is `"HOLD"` resolves to
the card action `"HOLD"` — not `"BUY"`, not `"SELL"`, and not coerced
to the default — and is counted as neither buy nor sell, refuting the
claim that the normalized action is always exactly one of BUY/SELL
with unrecognized values defaulting to BUY. -/
theorem C2_counterexample_hold_action :
    resolveCardAction { action := some "HOLD" } = "HOLD" ∧
    ¬ (resolveCardAction { action := some "HOLD" } = "BUY" ∨
       resolveCardAction { action := some "HOLD" } = "SELL") ∧
    isBuyW { action := some "HOLD" } = false ∧
    isSellW { action := some "HOLD" } = false := by decide

/-- C2 (amended): the card action is resolved from `action` then
`signal`, defaulting to `"BUY"` only when both are absent or empty; a
present non-empty `action` value is used verbatim (not uppercased, not
restricted to BUY/SELL).  The buy/sell counters uppercase the
resolution (with empty default), so inputs "buy", "Buy" and "BUY" all
count as BUY, while an entry with neither field counts as neither. -/
theorem C2_amended_action_resolution :
    (∀ s : Signal, strTruthy s.action = false → strTruthy s.sigField = false →
      resolveCardAction s = "BUY") ∧
    (∀ s : Signal, ∀ a : String, s.action = some a → a ≠ "" → resolveCardAction s = a) ∧
    isBuyW { action := some "buy" } = true ∧
    isBuyW { action := some "Buy" } = true ∧
    isBuyW { action := some "BUY" } = true ∧
    isBuyW ({} : Signal) = false ∧ isSellW ({} : Signal) = false ∧
    resolveCardAction ({} : Signal) = "BUY" := by
  refine ⟨?_, ?_, by decide, by decide, by decide, by decide, by decide, by decide⟩
  · intro s h1 h2
    rcases ha : s.action with _ | a <;> rcases hb : s.sigField with _ | b <;>
      simp [strTruthy, ha, hb] at h1 h2 ⊢ <;>
      simp [resolveCardAction, strOrD, ha, hb, h1, h2]
  · intro s a ha hne
    simp [resolveCardAction, strOrD, ha, hne]

/-- C2 witness: the amended resolution applied at a concrete entry
with falsy `action` and `signal` fields. -/
theorem C2_amended_action_resolution_witness :
    resolveCardAction ({ sigField := some "" } : Signal) = "BUY" :=
  C2_amended_action_resolution.1 _ (by decide) (by decide)

/-- C3 counterexample: with `stop: 0` (primary, present) and
`stopLoss: 115` (legacy) both present, the rendered stop value is the
legacy `115`, refuting the claim that the primary field's value is
used whenever both are present — `||` takes the first *truthy*
candidate, and `0` is falsy. -/
theorem C3_counterexample_falsy_primary :
    resolveStop { stop := JSVal.num 0, stopLoss := JSVal.num 115 } = JSVal.num 115 ∧
    (createSignalCard
      { trade_setup := some { stop := JSVal.num 0, stopLoss := JSVal.num 115 } }).stopHtml = "115" ∧
    JSVal.num 115 ≠ JSVal.num 0 := by decide

/-- C3 (amended): for each primary/legacy pair (entry/entryZone,
stop/stopLoss, target/targetPrice, symbol/ticker, action/signal) the
primary wins when its value is truthy (non-empty, non-zero) and the
legacy alternate is used when the primary is absent or falsy; a
legacy-only `entryZone: "3500-3550"` renders verbatim. -/
theorem C3_amended_field_precedence :
    (∀ ts : TradeSetup, ts.entry.truthy = true → resolveEntry ts = ts.entry) ∧
    (∀ ts : TradeSetup, ts.entry.truthy = false → resolveEntry ts = ts.entryZone) ∧
    (∀ ts : TradeSetup, ts.stop.truthy = true → resolveStop ts = ts.stop) ∧
    (∀ ts : TradeSetup, ts.stop.truthy = false → resolveStop ts = ts.stopLoss) ∧
    (∀ ts : TradeSetup, ts.target.truthy = true → resolveTarget ts = ts.target) ∧
    (∀ ts : TradeSetup, ts.target.truthy = false → resolveTarget ts = ts.targetPrice) ∧
    (∀ s : Signal, ∀ a, s.symbol = some a → a ≠ "" → resolveSymbol s = a) ∧
    (∀ s : Signal, ∀ a, strTruthy s.symbol = false → s.ticker = some a → a ≠ "" →
      resolveSymbol s = a) ∧
    (∀ s : Signal, ∀ a, strTruthy s.action = false → s.sigField = some a → a ≠ "" →
      resolveCardAction s = a) ∧
    (createSignalCard
      { symbol := some "TCS.NS",
        trade_setup := some { entryZone := JSVal.str "3500-3550" } }).entryHtml = "3500-3550" := by
  refine ⟨?_, ?_, ?_, ?_, ?_, ?_, ?_, ?_, ?_, by decide⟩
  · intro ts h; simp [resolveEntry, jsOr, h]
  · intro ts h; simp [resolveEntry, jsOr, h]
  · intro ts h; simp [resolveStop, jsOr, h]
  · intro ts h; simp [resolveStop, jsOr, h]
  · intro ts h; simp [resolveTarget, jsOr, h]
  · intro ts h; simp [resolveTarget, jsOr, h]
  · intro s a ha hne; simp [resolveSymbol, strOrD, ha, hne]
  · intro s a h0 ha hne
    rcases hs : s.symbol with _ | b <;>
      simp [strTruthy, hs] at h0 ⊢ <;>
      simp [resolveSymbol, strOrD, hs, ha, hne, h0]
  · intro s a h0 ha hne
    rcases hs : s.action with _ | b <;>
      simp [strTruthy, hs] at h0 ⊢ <;>
      simp [resolveCardAction, strOrD, hs, ha, hne, h0]

/-- C3 witness: the amended precedence applied at a concrete setup
with a truthy primary `entry`. -/
theorem C3_amended_field_precedence_witness :
    resolveEntry { entry := JSVal.str "100", entryZone := JSVal.str "200" } = JSVal.str "100" :=
  C3_amended_field_precedence.1 _ (by decide)

/-- C4 counterexample: with `total_signals: 0` present (and non-null)
and one signal, the displayed total is `1`, not the explicit `0` — the
code tests truthiness, not presence, so an explicit zero falls through
to the array length. -/
theorem C4_counterexample_zero_total :
    totalDisplay (some 0) (some [({} : Signal)]) = 1 ∧ (1 : Int) ≠ 0 := by decide

/-- C4 (amended): the aggregated total equals `total_signals` when
that field is present and *non-zero*, otherwise the length of the
signals array, and `0` when both are absent; in particular with
`total_signals` absent and 7 signals the total is 7. -/
theorem C4_amended_total_resolution :
    (∀ n : Int, n ≠ 0 → ∀ signals, totalDisplay (some n) signals = n) ∧
    (∀ signals, totalDisplay none signals = (numEntries signals : Int)) ∧
    (∀ l : List Signal, l.length = 7 → totalDisplay none (some l) = 7) ∧
    totalDisplay none none = 0 := by
  refine ⟨?_, fun signals => rfl, ?_, rfl⟩
  · intro n hn signals; simp [totalDisplay, hn]
  · intro l h; simp [totalDisplay, numEntries, h]

/-- C4 witness: the amended resolution applied at a non-zero explicit
count and at a concrete 7-element signals array. -/
theorem C4_amended_total_resolution_witness :
    totalDisplay (some 5) none = 5 ∧
    totalDisplay none (some [{}, {}, {}, {}, {}, {}, {}]) = 7 :=
  ⟨C4_amended_total_resolution.1 5 (by decide) none,
   C4_amended_total_resolution.2.2.1 _ (by decide)⟩

theorem buy_sell_filter_le (l : List Signal) :
    (l.filter isBuyW).length + (l.filter isSellW).length ≤ l.length := by
  induction l with
  | nil => simp
  | cons a t ih =>
    simp only [List.filter_cons]
    by_cases h : upActionW a = "BUY"
    · have h1 : isBuyW a = true := by simp [isBuyW, h]
      have h2 : isSellW a = false := by simp [isSellW, h]
      simp [h1, h2, List.length_cons]
      omega
    · have h1 : isBuyW a = false := by simp [isBuyW, h]
      by_cases hs : upActionW a = "SELL"
      · have h2 : isSellW a = true := by simp [isSellW, hs]
        simp [h1, h2, List.length_cons]
        omega
      · have h2 : isSellW a = false := by simp [isSellW, hs]
        simp [h1, h2, List.length_cons]
        omega

theorem buy_sell_filter_eq (l : List Signal) :
    (∀ s ∈ l, isBuyW s = true ∨ isSellW s = true) →
    (l.filter isBuyW).length + (l.filter isSellW).length = l.length := by
  induction l with
  | nil => intro _; simp
  | cons a t ih =>
    intro h
    have ha := h a (by simp)
    have ih2 := ih (fun s hs => h s (by simp [hs]))
    simp only [List.filter_cons]
    rcases ha with hb | hse
    · have h2 : isSellW a = false := by
        simp [isBuyW] at hb
        simp [isSellW, hb]
      simp [hb, h2, List.length_cons]
      omega
    · have h1 : isBuyW a = false := by
        simp [isSellW] at hse
        simp [isBuyW, hse]
      simp [h1, hse, List.length_cons]
      omega

/-- C5 counterexample: for a one-element list whose entry has neither
`action` nor `signal`, buyCount + sellCount is `0` while the entry
count is `1` — the counters classify by `(action || signal ||
'').toUpperCase()`, which is `""` here, so equality does *not* hold
for every input list as the claim asserts. -/
theorem C5_counterexample_unclassified_entry :
    buyCountW (some [({} : Signal)]) + sellCountW (some [({} : Signal)]) = 0 ∧
    numEntries (some [({} : Signal)]) = 1 ∧ (0 : Nat) ≠ 1 := by decide

/-- C5 (amended): buyCount + sellCount never exceeds the number of
entries, and equals it exactly when every entry's uppercased resolved
action is `"BUY"` or `"SELL"`; entries resolving to anything else
(including the empty default) break the equality. -/
theorem C5_amended_count_bound (signals : Option (List Signal)) :
    buyCountW signals + sellCountW signals ≤ numEntries signals ∧
    ((∀ s ∈ signals.getD [], isBuyW s = true ∨ isSellW s = true) →
      buyCountW signals + sellCountW signals = numEntries signals) := by
  cases signals with
  | none => exact ⟨Nat.le_refl 0, fun _ => rfl⟩
  | some l => exact ⟨buy_sell_filter_le l, fun h => buy_sell_filter_eq l h⟩

/-- C5 witness: the amended bound applied at a concrete two-element
list in which every entry classifies as BUY or SELL. -/
theorem C5_amended_count_bound_witness :
    buyCountW (some [{ action := some "buy" }, { sigField := some "SELL" }]) +
      sellCountW (some [{ action := some "buy" }, { sigField := some "SELL" }]) =
      numEntries (some [{ action := some "buy" }, { sigField := some "SELL" }]) :=
  (C5_amended_count_bound _).2 (by decide)

/-- C6: `formatNumber` maps null/undefined to "N/A" and renders
numbers with Indian digit grouping (`1234567 ↦ "12,34,567"`);
`formatSetupValue` maps null/undefined to "N/A", delegates numbers to
`formatNumber`, and renders any other value as its escaped raw text. -/
theorem C6_format_contract :
    formatNumber none = "N/A" ∧
    formatNumber (some 1234567) = "12,34,567" ∧
    formatNumber (some 1234) = "1,234" ∧
    formatNumber (some 123456) = "1,23,456" ∧
    formatSetupValue JSVal.null = "N/A" ∧
    formatSetupValue JSVal.undefined = "N/A" ∧
    (∀ n : Int, formatSetupValue (JSVal.num n) = formatNumber (some n)) ∧
    (∀ s : String, formatSetupValue (JSVal.str s) = escapeHtml (JSVal.str s)) :=
  ⟨rfl, by decide, by decide, by decide, rfl, rfl, fun n => rfl, fun s => rfl⟩

theorem formatDate_not3_verbatim (s : String) (hne : s ≠ "")
    (h : (jsSplit s '-').length ≠ 3) : formatDate (some s) = s := by
  unfold formatDate
  simp only [hne, if_false]
  rcases hsplit : jsSplit s '-' with _ | ⟨a, _ | ⟨b, _ | ⟨c, _ | ⟨d, rest⟩⟩⟩⟩ <;>
    first
      | rfl
      | (rw [hsplit] at h; simp at h)

/-- C7 counterexample: the unparseable input "ab-cd-ef" (three
dash-separated parts, none numeric) renders as "Invalid Date" rather
than being returned verbatim, refuting the claim that any unparseable
input is passed through. -/
theorem C7_counterexample_invalid_date :
    formatDate (some "ab-cd-ef") = "Invalid Date" ∧
    ("Invalid Date" : String) ≠ "ab-cd-ef" := by decide

/-- C7 (amended): missing input gives the context default ("This Week"
weekly, "Today" daily); the *weekly* `formatDate` parses the three
dash-separated components individually (no timezone shifting) and
renders a full weekday/month/day/year string; input that does not
split into exactly three parts is returned verbatim, while a
three-part input with an unparseable component renders as "Invalid
Date"; the *daily* `formatDate` parses the whole string with the
`Date` constructor, which reads `YYYY-MM-DD` as UTC midnight, so the
rendered day is one day earlier for viewers west of UTC. -/
theorem C7_amended_formatDate :
    formatDate none = "This Week" ∧
    formatDate (some "") = "This Week" ∧
    (∀ tz : Int, formatDateDaily tz none = "Today") ∧
    formatDate (some "2026-01-10") = "Saturday, January 10, 2026" ∧
    (∀ s : String, s ≠ "" → (jsSplit s '-').length ≠ 3 → formatDate (some s) = s) ∧
    formatDate (some "ab-cd-ef") = "Invalid Date" ∧
    formatDateDaily 330 (some "2026-01-10") = "Saturday, January 10, 2026" ∧
    formatDateDaily (-300) (some "2026-01-10") = "Friday, January 9, 2026" :=
  ⟨rfl, by decide, fun tz => rfl, by decide, formatDate_not3_verbatim, by decide,
   by decide, by decide⟩

/-- C7 witness: the amended pass-through clause applied at a concrete
one-part input. -/
theorem C7_amended_formatDate_witness : formatDate (some "hello") = "hello" :=
  C7_amended_formatDate.2.2.2.2.1 "hello" (by decide) (by decide)

/-- C8 counterexample: with both `week_ending: "2026-01-10"` and
`generated_date: "2025-12-01"` present, the resolved and formatted
date comes from `generated_date` — the weekly script never reads
`week_ending`, refuting the claim that the formatted date reflects
it. -/
theorem C8_counterexample_week_ending_ignored :
    resolveWeeklyDateStr
      { week_ending := some "2026-01-10", generated_date := some "2025-12-01" } =
      some "2025-12-01" ∧
    formatDate (resolveWeeklyDateStr
      { week_ending := some "2026-01-10", generated_date := some "2025-12-01" }) =
      "Monday, December 1, 2025" ∧
    formatDate (some "2026-01-10") = "Saturday, January 10, 2026" ∧
    ("Monday, December 1, 2025" : String) ≠ "Saturday, January 10, 2026" := by decide

/-- C8 (amended): the weekly date string is resolved by trying
`generated_date` first and then the portion of `generated_at` before
"T"; `week_ending` is never consulted (the resolution is invariant in
it), and when both are absent the date formats as the "This Week"
sentinel. -/
theorem C8_amended_date_resolution :
    (∀ m : WeeklyMeta, ∀ w : Option String,
      resolveWeeklyDateStr { m with week_ending := w } = resolveWeeklyDateStr m) ∧
    (∀ m : WeeklyMeta, ∀ s, m.generated_date = some s → s ≠ "" →
      resolveWeeklyDateStr m = some s) ∧
    resolveWeeklyDateStr { generated_at := some "2026-01-07T10:30:00" } = some "2026-01-07" ∧
    resolveWeeklyDateStr ({} : WeeklyMeta) = none ∧
    formatDate (resolveWeeklyDateStr ({} : WeeklyMeta)) = "This Week" := by
  refine ⟨?_, ?_, by decide, rfl, rfl⟩
  · intro m w; cases m; rfl
  · intro m s hs hne
    simp [resolveWeeklyDateStr, strTruthy, hs, hne]

/-- C8 witness: the amended resolution applied at a concrete metadata
object carrying all three date fields. -/
theorem C8_amended_date_resolution_witness :
    resolveWeeklyDateStr
      { week_ending := some "2026-01-10", generated_date := some "2025-12-01",
        generated_at := some "2025-11-30T09:00:00" } = some "2025-12-01" :=
  C8_amended_date_resolution.2.1 _ "2025-12-01" rfl (by decide)

/-- C9: a digest whose `top_picks` is the empty array and whose other
sections are absent renders the empty-state message, not an empty Top
Picks section; every emitted section has non-empty content; and the
emitted sections always appear as a subsequence of the fixed order
overview, insights, top picks, sector analysis, outlook. -/
theorem C9_digest_sections :
    renderDigest { top_picks := some [] } =
      DigestView.emptyState "No weekly digest available." ∧
    (∀ d : WeeklyDigest, ((renderedSections d).map Prod.fst).Sublist digestOrder) ∧
    (∀ d : WeeklyDigest, (renderedSections d).all (fun sec => sectionNonEmpty sec.2) = true) := by
  refine ⟨by decide, ?_, ?_⟩
  · intro d
    refine List.Sublist.trans (List.Sublist.map Prod.fst (List.filter_sublist _)) ?_
    rcases d with ⟨mo, ki, tp, sa, ol⟩
    cases mo <;> cases ki <;> cases tp <;> cases sa <;> cases ol <;>
      (simp only [digestSectionsRaw, digestOrder, List.append_nil, List.nil_append,
        List.cons_append, List.map_cons, List.map_nil]; decide)
  · intro d
    rw [List.all_eq_true]
    intro sec hsec
    simp only [renderedSections] at hsec
    exact (List.mem_filter.mp hsec).2

/-- C10: when a daily document has no `report_metadata`, the render
pass leaves the title, date and total-count display fields unchanged,
while the buy/sell counts and the signal cards are still computed and
rendered from the signals array (empty list when absent). -/
theorem C10_daily_frame (tz : Int) (data : DailyDoc) (st : DisplayState)
    (h : data.report_metadata = none) :
    (renderReportDaily tz data st).reportTitle = st.reportTitle ∧
    (renderReportDaily tz data st).reportDate = st.reportDate ∧
    (renderReportDaily tz data st).totalSignals = st.totalSignals ∧
    (renderReportDaily tz data st).buySignals = toString (buyCountDaily data.signals) ∧
    (renderReportDaily tz data st).sellSignals = toString (sellCountDaily data.signals) ∧
    (renderReportDaily tz data st).signalsContainer = renderSignalsDaily (data.signals.getD []) := by
  unfold renderReportDaily
  rw [h]
  exact ⟨rfl, rfl, rfl, rfl, rfl, rfl⟩

/-- C10 witness: the frame property applied at a concrete metadata-less
document over a concrete prior display state. -/
theorem C10_daily_frame_witness :
    (renderReportDaily 0 { signals := some [{ action := some "SELL" }] }
      ⟨"t", "d", "n", "b", "s", ContainerView.emptyState "e"⟩).reportTitle = "t" ∧
    (renderReportDaily 0 { signals := some [{ action := some "SELL" }] }
      ⟨"t", "d", "n", "b", "s", ContainerView.emptyState "e"⟩).sellSignals = "1" := by
  have h := C10_daily_frame 0 { signals := some [{ action := some "SELL" }] }
    ⟨"t", "d", "n", "b", "s", ContainerView.emptyState "e"⟩ rfl
  exact ⟨h.1, by rw [h.2.2.2.2.1]; decide⟩

end SwingSignal
